import Mathlib

/-!
Shallow embedding of the manpower-app multi-agent chat core, translated from
the TypeScript source: the message validator (`src/utils/validation.ts`), the
router agent (`src/lib/agents/router.ts`), the chat agent
(`src/lib/agents/chat.ts`), the LangGraph orchestrator
(`src/lib/agents/graph.ts`), the SSE chat route (`src/app/api/chat/route.ts`),
and the session store (`src/lib/memory/session.ts`).  Strings are modelled as
`List Char` where character-level rewriting matters and as `String` elsewhere;
JavaScript exceptions are modelled with `Except String` carrying the thrown
`Error` message; the single LLM-gateway call made by each agent is modelled as
an explicit outcome parameter.
-/

namespace MessageValidator

/-- Result record of the validator (`ValidationResult` in the source):
`isValid`, optional `sanitized` output, optional `error` message. -/
structure ValidationResult where
  isValid : Bool
  sanitized : Option (List Char) := none
  error : Option String := none
deriving DecidableEq

def MAX_MESSAGE_LENGTH : Nat := 10000

def MIN_MESSAGE_LENGTH : Nat := 1

/-- One global single-character regex replacement, as in
`input.replace(/c/g, r)`: every occurrence of the character `c` is replaced
by the string `r`, other characters are kept. -/
def replaceAllChar (c : Char) (r : List Char) : List Char → List Char
  | [] => []
  | a :: as => (if a = c then r else [a]) ++ replaceAllChar c r as

/-- `sanitizeHtml`: the five chained global replacements
`< -> &lt;`, `> -> &gt;`, `" -> &quot;`, apostrophe `-> &#x27;`,
`/ -> &#x2F;` applied in source order.  None of the replacement strings
contains a later (or earlier) target character, so the chaining introduces no
re-replacement. -/
def sanitizeHtml (input : List Char) : List Char :=
  replaceAllChar '/' "&#x2F;".data
    (replaceAllChar '\x27' "&#x27;".data
      (replaceAllChar '\x22' "&quot;".data
        (replaceAllChar '>' "&gt;".data
          (replaceAllChar '<' "&lt;".data input))))

/-- JavaScript `String.prototype.trim`: strip leading and trailing
whitespace. -/
def jsTrim (s : List Char) : List Char :=
  ((s.dropWhile Char.isWhitespace).reverse.dropWhile Char.isWhitespace).reverse

/-- `MessageValidator.validateMessage`: reject empty input (`!input` is truthy
for the empty string), trim, enforce the length window, sanitize, and reject
if sanitization produced the empty string. -/
def validateMessage (input : List Char) : ValidationResult :=
  if input = [] then
    { isValid := false, error := some "Message is required and must be a string" }
  else
    let trimmed := jsTrim input
    if trimmed.length < MIN_MESSAGE_LENGTH then
      { isValid := false, error := some "Message cannot be empty" }
    else if trimmed.length > MAX_MESSAGE_LENGTH then
      { isValid := false
        error := some "Message is too long. Maximum 10000 characters allowed" }
    else
      let sanitized := sanitizeHtml trimmed
      if sanitized.length = 0 then
        { isValid := false, error := some "Message contains invalid characters" }
      else
        { isValid := true, sanitized := some sanitized }

end MessageValidator

/-- Message role, as in the `Message` interface
(`role: 'user' | 'assistant' | 'system'`). -/
inductive Role
  | user
  | assistant
  | system
deriving DecidableEq

/-- Target-agent tag, as in the `RouterDecision` interface
(`nextAgent: 'chat' | 'rag' | 'tools'`). -/
inductive AgentTag
  | chat
  | rag
  | tools
deriving DecidableEq

def AgentTag.name : AgentTag → String
  | .chat => "chat"
  | .rag => "rag"
  | .tools => "tools"

/-- One conversation message as the agents and graph see it: a role plus a
text `content` field (`HumanMessage` / `AIMessage` payloads and stored
`Message` records all expose `.content`). -/
structure GraphMsg where
  role : Role
  content : String
deriving DecidableEq

/-- The `AgentState` record handed to the agents (`messages`, `sessionId`,
optional `userId`); the agents read only `messages`. -/
structure AgentState where
  messages : List GraphMsg
  sessionId : String := ""
  userId : Option String := none
deriving DecidableEq

/-- `extractMessageContent`: the message objects in play always carry a
`content` field, which is returned as-is (an empty `content` is falsy in the
source and falls through to the empty string as well). -/
def extractMessageContent (m : GraphMsg) : String :=
  m.content

namespace RouterAgent

/-- A JavaScript value as produced by `JSON.parse` for one field of the
routing object; for an array only its length is relevant to the code. -/
inductive JValue
  | str (s : String)
  | num (q : ℚ)
  | bool (b : Bool)
  | null
  | arr (length : Nat)
deriving DecidableEq

/-- JavaScript truthiness of an optional field value (`undefined`, `null`,
`false`, `0` and the empty string are falsy). -/
def truthy : Option JValue → Bool
  | none => false
  | some (.str s) => !(s == "")
  | some (.num q) => !(q == 0)
  | some (.bool b) => b
  | some .null => false
  | some (.arr _) => true

/-- The JavaScript test `typeof v === 'number'` on an optional field. -/
def typeofNumber : Option JValue → Bool
  | some (.num _) => true
  | _ => false

/-- The JavaScript test `v.length > 0`: for a string or an array this is its
length; for any other value `.length` is `undefined` and the comparison is
false. -/
def jsLengthPos : JValue → Bool
  | .str s => decide (0 < s.length)
  | .arr n => decide (0 < n)
  | _ => false

/-- Strict-equality membership in `['chat', 'rag', 'tools']`, returning the
matching tag (`Array.prototype.includes` with string literals). -/
def asAgentTag : JValue → Option AgentTag
  | .str "chat" => some .chat
  | .str "rag" => some .rag
  | .str "tools" => some .tools
  | _ => none

def agentTagOfField : Option JValue → Option AgentTag
  | some v => asAgentTag v
  | none => none

def numOfField : Option JValue → ℚ
  | some (.num q) => q
  | _ => 0

/-- The object produced by `JSON.parse` on the extracted `{...}` substring:
each expected field is present with some JavaScript value or absent. -/
structure ParsedObj where
  nextAgent : Option JValue := none
  confidence : Option JValue := none
  reasoning : Option JValue := none
deriving DecidableEq

/-- Outcome of locating the first `{...}` substring of the raw LLM response
and running `JSON.parse` on it: no such substring, a substring that does not
parse, or a parsed object. -/
inductive RawResponse
  | noJson
  | badJson
  | obj (o : ParsedObj)
deriving DecidableEq

/-- The routing decision record (`RouterDecision`); `reasoning` keeps the raw
parsed value, which the decision-building code copies without conversion. -/
structure RouterDecision where
  nextAgent : AgentTag
  confidence : ℚ
  reasoning : JValue
deriving DecidableEq

/-- Body of the `try` block of `parseRoutingDecision`: the error strings are
the messages of the individual `throw new Error(...)` statements. -/
def parseRoutingDecisionTry : RawResponse → Except String RouterDecision
  | .noJson => .error "No JSON found in response"
  | .badJson => .error "Unexpected token in JSON"
  | .obj o =>
    if !truthy o.nextAgent || !typeofNumber o.confidence || !truthy o.reasoning then
      .error "Invalid routing decision format"
    else
      match agentTagOfField o.nextAgent with
      | none => .error "Invalid agent"
      | some tag =>
        if numOfField o.confidence < 0 || numOfField o.confidence > 1 then
          .error "Invalid confidence"
        else
          .ok { nextAgent := tag
                confidence := numOfField o.confidence
                reasoning := (o.reasoning.getD .null) }

/-- `parseRoutingDecision`: the surrounding `catch` swallows every internal
throw and rethrows the single message `Failed to parse routing decision`. -/
def parseRoutingDecision (r : RawResponse) : Except String RouterDecision :=
  match parseRoutingDecisionTry r with
  | .ok d => .ok d
  | .error _ => .error "Failed to parse routing decision"

/-- `isValidDecision`: re-checks the decision after parsing; `typeof
decision.confidence === 'number'` is true by the decision's type, and
`decision.reasoning.length > 0` applies JavaScript `.length` semantics to the
raw reasoning value. -/
def isValidDecision (d : RouterDecision) : Bool :=
  !(d.nextAgent.name == "") &&
  ["chat", "rag", "tools"].contains d.nextAgent.name &&
  decide (0 ≤ d.confidence) &&
  decide (d.confidence ≤ 1) &&
  truthy (some d.reasoning) &&
  jsLengthPos d.reasoning

/-- Outcome of the single `glmClient.generateCompletion` call made while
routing: the promise rejected, or it resolved with a raw response. -/
inductive GatewayOutcome
  | failure (msg : String)
  | response (r : RawResponse)

/-- The fixed fallback decision returned when `isValidDecision` rejects a
parsed decision. -/
def defaultDecision : RouterDecision :=
  { nextAgent := .chat
    confidence := 1 / 2
    reasoning := .str "Invalid routing decision, defaulting to chat agent" }

/-- `RouterAgent.routeMessage`: guard on empty history and empty content,
then call the gateway, parse, validate, and either return the decision, the
fallback, or rethrow `Failed to route message` from the `catch`. -/
def routeMessage (state : AgentState) (gw : GatewayOutcome) :
    Except String RouterDecision :=
  if state.messages.isEmpty then
    .error "No messages to route"
  else
    let messageContent :=
      ((state.messages.getLast?).map extractMessageContent).getD ""
    if messageContent == "" then
      .error "No message content found"
    else
      match gw with
      | .failure _ => .error "Failed to route message"
      | .response r =>
        match parseRoutingDecision r with
        | .error _ => .error "Failed to route message"
        | .ok decision =>
          if !isValidDecision decision then
            .ok defaultDecision
          else
            .ok decision

end RouterAgent

namespace ChatAgent

/-- Outcome of the chat agent's `glmClient.generateCompletion` call. -/
inductive ChatGateway
  | failure (msg : String)
  | success (reply : String)

/-- The `AgentResponse` record: agent tag, reply content, and the
`processingTime` metadata taken from `Date.now()`. -/
structure AgentResponse where
  agent : String
  content : String
  processingTime : Nat
deriving DecidableEq

/-- `ChatAgent.processMessage`: guard on empty history and empty content,
then return the gateway completion verbatim, or rethrow
`Failed to process message` from the `catch`. -/
def processMessage (state : AgentState) (gw : ChatGateway) (now : Nat) :
    Except String AgentResponse :=
  if state.messages.isEmpty then
    .error "No message to process"
  else
    let messageContent :=
      ((state.messages.getLast?).map extractMessageContent).getD ""
    if messageContent == "" then
      .error "No message content found"
    else
      match gw with
      | .failure _ => .error "Failed to process message"
      | .success reply =>
        .ok { agent := "chat", content := reply, processingTime := now }

end ChatAgent

namespace MultiAgentGraph

open RouterAgent ChatAgent

/-- The graph-level `context` record: the keys the four nodes write
(`routingDecision`, `routingError`, `lastAgent`, `agentMetadata`, `chatError`,
`ragPlaceholder`, `ragError`, `toolsPlaceholder`, `toolsError`); every node
spreads the previous context, so absent keys persist. -/
structure GraphCtx where
  routingDecision : Option RouterDecision := none
  routingError : Option String := none
  lastAgent : Option String := none
  agentMetadata : Option Nat := none
  chatError : Option String := none
  ragPlaceholder : Bool := false
  ragError : Option String := none
  toolsPlaceholder : Bool := false
  toolsError : Option String := none
deriving DecidableEq

/-- The `GraphState` channels: ordered messages, session and user ids, the
routing target, retrieval and tool placeholders, and the context map. -/
structure GraphState where
  messages : List GraphMsg
  sessionId : String := ""
  userId : Option String := none
  nextAgent : Option AgentTag := none
  retrievedDocs : List String := []
  toolResults : List String := []
  context : GraphCtx := {}
deriving DecidableEq

/-- A node's returned partial state (`Partial<GraphState>` restricted to the
channels the four nodes actually write). -/
structure GraphUpdate where
  messages : List GraphMsg := []
  nextAgent : Option AgentTag := none
  context : Option GraphCtx := none

/-- Channel merge: `messages` concatenates (`x.concat(y)`), `nextAgent` takes
the new value when present (`y || x`), `context` is replaced by the node's
returned object (each node already spreads the old context into it). -/
def applyUpdate (s : GraphState) (u : GraphUpdate) : GraphState :=
  { s with
    messages := s.messages ++ u.messages
    nextAgent := match u.nextAgent with
      | some a => some a
      | none => s.nextAgent
    context := u.context.getD s.context }

/-- The `AgentState` the nodes build from the graph state before invoking an
agent. -/
def GraphState.toAgentState (s : GraphState) : AgentState :=
  { messages := s.messages, sessionId := s.sessionId, userId := s.userId }

/-- `routeNode`: run `routeMessage`; on success record the decision and its
target, on any thrown error record the error text and default the target to
`chat`. -/
def routeNode (s : GraphState) (gw : GatewayOutcome) : GraphUpdate :=
  match routeMessage s.toAgentState gw with
  | .ok decision =>
    { nextAgent := some decision.nextAgent
      context := some { s.context with routingDecision := some decision } }
  | .error e =>
    { nextAgent := some .chat
      context := some { s.context with routingError := some e } }

/-- The fixed apologetic reply the chat node appends when
`ChatAgent.processMessage` throws. -/
def chatApology : String :=
  "Sorry, I encountered an error while processing your message. Please try again."

/-- `chatNode`: invoke the chat agent and append its reply as an
`AIMessage`; on any thrown error append the fixed apologetic reply and record
the error text. -/
def chatNode (s : GraphState) (gw : ChatGateway) (now : Nat) : GraphUpdate :=
  match ChatAgent.processMessage s.toAgentState gw now with
  | .ok response =>
    { messages := [{ role := .assistant, content := response.content }]
      context := some { s.context with
        lastAgent := some "chat"
        agentMetadata := some response.processingTime } }
  | .error e =>
    { messages := [{ role := .assistant, content := chatApology }]
      context := some { s.context with
        lastAgent := some "chat"
        chatError := some e } }

/-- Indexing `messages[messages.length - 1]` and reading `.content` the way
`ragNode` and `toolsNode` do: on an empty list the index yields `undefined`,
whose `typeof` is not `'object'`, so `String(undefined)` = `"undefined"` is
used as the content. -/
def lastContentOrUndefined (messages : List GraphMsg) : String :=
  match messages.getLast? with
  | some m => m.content
  | none => "undefined"

/-- `ragNode`: a placeholder that never consults a gateway; it echoes the
last message content inside a fixed explanatory reply.  Nothing in its `try`
block can throw, so its `catch` branch is dead and the node is total. -/
def ragNode (s : GraphState) : GraphUpdate :=
  let content := lastContentOrUndefined s.messages
  { messages := [{ role := .assistant
                   content := "I understand you\x27re asking about: \x22" ++ content ++
                     "\x22. RAG functionality will be implemented in a future update. For now, I\x27ll provide a general response based on my training." }]
    context := some { s.context with
      lastAgent := some "rag"
      ragPlaceholder := true } }

/-- `toolsNode`: the tool-execution placeholder, structurally identical to
`ragNode`. -/
def toolsNode (s : GraphState) : GraphUpdate :=
  let content := lastContentOrUndefined s.messages
  { messages := [{ role := .assistant
                   content := "I understand you\x27re asking me to perform an action: \x22" ++ content ++
                     "\x22. Tool execution functionality will be implemented in a future update. For now, I\x27ll provide information based on my general knowledge." }]
    context := some { s.context with
      lastAgent := some "tools"
      toolsPlaceholder := true } }

/-- `routeDecision`: the conditional edge selector, `state.nextAgent ||
'chat'`. -/
def routeDecision (s : GraphState) : AgentTag :=
  s.nextAgent.getD .chat

/-- The target the compiled graph dispatches to after the router node has
run on the initial state. -/
def dispatchTarget (s : GraphState) (gw : GatewayOutcome) : AgentTag :=
  routeDecision (applyUpdate s (routeNode s gw))

/-- `MultiAgentGraph.processMessage`: one traversal of the compiled graph —
router node, conditional edge, one specialist node, END.  The router's and
the chat agent's single gateway calls are passed as explicit outcomes. -/
def processMessage (s : GraphState) (routerGw : GatewayOutcome)
    (chatGw : ChatGateway) (now : Nat) : GraphState :=
  let s1 := applyUpdate s (routeNode s routerGw)
  let u := match routeDecision s1 with
    | .chat => chatNode s1 chatGw now
    | .rag => ragNode s1
    | .tools => toolsNode s1
  applyUpdate s1 u

end MultiAgentGraph

namespace ChatRoute

/-- The wire event kinds of the SSE route (the `type` field of each framed
event). -/
inductive StreamEventKind
  | status
  | chunk
  | complete
  | error
deriving DecidableEq

/-- One wire event as the route serializes it: kind, agent tag, and text
content (the timestamp and optional metadata carry no protocol
information). -/
structure StreamEvent where
  kind : StreamEventKind
  agent : String
  content : String
deriving DecidableEq

/-- One item yielded by `graph.streamMessage` (agent tag and content
fragment). -/
structure StreamChunk where
  agent : String
  content : String
deriving DecidableEq

/-- One execution of the `ReadableStream` `start` body: either every step up
to and including `saveSession` and the final enqueue succeeded after the
generator yielded `chunks`, or an exception fired after `chunks` items had
been yielded and forwarded (mid-iteration, or during the save/completion
steps with `chunks` the full yield sequence). -/
inductive StreamRun
  | completes (chunks : List StreamChunk)
  | failsAfter (chunks : List StreamChunk)

/-- `fullResponse`: the route's accumulator `fullResponse += chunk.content`. -/
def fullResponse (chunks : List StreamChunk) : String :=
  chunks.foldl (fun acc c => acc ++ c.content) ""

/-- `currentAgent`: starts as `'chat'` and is overwritten by each chunk's
agent tag. -/
def currentAgent (chunks : List StreamChunk) : String :=
  chunks.foldl (fun _ c => c.agent) "chat"

/-- The initial status event the route enqueues before iterating the
generator. -/
def initialStatus : StreamEvent :=
  { kind := .status, agent := "system", content := "Processing your message..." }

/-- The error event enqueued by the `catch` branch. -/
def errorEvent : StreamEvent :=
  { kind := .error, agent := "system"
    content := "Sorry, I encountered an error while processing your message." }

/-- The event sequence one POST /chat request writes to its response stream:
the initial `status` event, one `chunk` event per generator item, then either
the single `complete` event or the single `error` event; the `finally` block
then closes the controller, so nothing follows. -/
def streamEvents : StreamRun → List StreamEvent
  | .completes chunks =>
    initialStatus ::
      (chunks.map fun c => { kind := .chunk, agent := c.agent, content := c.content }) ++
      [{ kind := .complete, agent := currentAgent chunks, content := fullResponse chunks }]
  | .failsAfter chunks =>
    initialStatus ::
      (chunks.map fun c => { kind := .chunk, agent := c.agent, content := c.content }) ++
      [errorEvent]

end ChatRoute

namespace SessionManager

/-- A stored conversation message (`Message` in `lib/types/message.ts`):
identifier, role, content, creation time, optional agent tag. -/
structure Message where
  id : String
  role : Role
  content : String
  timestamp : Nat
  agent : Option String := none
deriving DecidableEq

/-- The persisted `AgentState` record (`lib/types/session.ts`); `updatedAt`
is the extra timestamp `saveSession` spreads onto the stored object. -/
structure StoredState where
  messages : List Message
  sessionId : String
  userId : Option String := none
  nextAgent : Option AgentTag := none
  retrievedDocs : Option (List String) := none
  toolResults : Option (List String) := none
  context : List (String × String) := []
  updatedAt : Option Nat := none
deriving DecidableEq

/-- The module-level `inMemorySessions` map, keyed by session id. -/
def Store : Type := String → Option StoredState

def emptyStore : Store := fun _ => none

/-- `SessionManager.saveSession`: spread the state, set `updatedAt` to the
current time, and write it under the session id (`Map.set`,
overwrite-or-create). -/
def saveSession (store : Store) (sessionId : String) (state : StoredState)
    (now : Nat) : Store :=
  let stateWithTimestamps := { state with updatedAt := some now }
  fun k => if k = sessionId then some stateWithTimestamps else store k

/-- `SessionManager.loadSession`: `Map.get`; a missing id returns `null`
(modelled `none`), a valid non-error outcome. -/
def loadSession (store : Store) (sessionId : String) : Option StoredState :=
  store sessionId

/-- One recorded `saveSession` call: session id, state, and the clock value
at the write. -/
def SaveOp : Type := String × StoredState × Nat

/-- Replay a sequence of `saveSession` calls against a store. -/
def applySaves (ops : List SaveOp) (store : Store) : Store :=
  ops.foldl (fun st op => saveSession st op.1 op.2.1 op.2.2) store

/-- `messagesToAgentState`: wrap an ordered message sequence into a fresh
agent state with empty routing fields. -/
def messagesToAgentState (messages : List Message) (sessionId : String)
    (userId : Option String) : StoredState :=
  { messages := messages
    sessionId := sessionId
    userId := userId
    nextAgent := none
    retrievedDocs := none
    toolResults := none
    context := [] }

/-- `agentStateToMessages`: project the stored message sequence back out
(`state.messages || []`). -/
def agentStateToMessages (state : StoredState) : List Message :=
  state.messages

end SessionManager

namespace Examples

open RouterAgent MultiAgentGraph

/-- A one-message conversation (`Hello` from the user), used as the concrete
state for the router counterexamples. -/
def oneHelloState : AgentState :=
  { messages := [{ role := .user, content := "Hello" }] }

/-- A well-formed JSON routing object with `reasoning` missing — the
semantic-validation failure case named by the specification. -/
def missingReasoningObj : ParsedObj :=
  { nextAgent := some (.str "chat"), confidence := some (.num (19 / 20)) }

/-- A well-formed JSON routing object whose `reasoning` is the number `42`:
it passes every check in the parse step (truthy, number confidence in range)
but fails `isValidDecision` because `(42).length > 0` is false. -/
def numericReasoningObj : ParsedObj :=
  { nextAgent := some (.str "chat")
    confidence := some (.num 1)
    reasoning := some (.num 42) }

/-- A zero-turn graph state. -/
def emptyGraphState : GraphState :=
  { messages := [], sessionId := "session-0" }

/-- A one-turn graph state used by the orchestrator witness. -/
def oneTurnGraphState : GraphState :=
  { messages := [{ role := .user, content := "Hi" }], sessionId := "session-1" }

/-- A concrete stored state for the session-store witness. -/
def sampleStoredState : SessionManager.StoredState :=
  { messages := [{ id := "m-1", role := .user, content := "Hello", timestamp := 1 }]
    sessionId := "s-1" }

/-- A second stored state, saved under a different id by the session-store
witness. -/
def otherStoredState : SessionManager.StoredState :=
  { messages := [], sessionId := "s-2" }

end Examples

namespace MessageValidator

theorem replaceAllChar_ne_nil (c : Char) (r : List Char) (hr : r ≠ [])
    (s : List Char) (hs : s ≠ []) : replaceAllChar c r s ≠ [] := by
  cases s with
  | nil => exact absurd rfl hs
  | cons a as =>
    simp only [replaceAllChar]
    intro h
    rcases List.append_eq_nil.mp h with ⟨h1, _⟩
    by_cases hac : a = c
    · simp [hac] at h1
      exact hr h1
    · simp [hac] at h1

theorem sanitizeHtml_ne_nil (s : List Char) (hs : s ≠ []) :
    sanitizeHtml s ≠ [] := by
  unfold sanitizeHtml
  apply replaceAllChar_ne_nil _ _ (by decide)
  apply replaceAllChar_ne_nil _ _ (by decide)
  apply replaceAllChar_ne_nil _ _ (by decide)
  apply replaceAllChar_ne_nil _ _ (by decide)
  exact replaceAllChar_ne_nil _ _ (by decide) _ hs

theorem jsTrim_nil : jsTrim [] = [] := by rfl

/-- C6: for every input whose trimmed form is non-empty and at most 10,000
characters, `validateMessage` returns a valid result whose sanitized string is
non-empty; the "Message contains invalid characters" branch is unreachable
because each escaped character becomes a non-empty entity and every other
character is preserved. -/
theorem validateMessage_accepts (input : List Char)
    (h1 : 1 ≤ (jsTrim input).length)
    (h2 : (jsTrim input).length ≤ MAX_MESSAGE_LENGTH) :
    validateMessage input =
      { isValid := true, sanitized := some (sanitizeHtml (jsTrim input)) } ∧
    sanitizeHtml (jsTrim input) ≠ [] := by
  have hinput : ¬ input = [] := by
    intro h
    rw [h, jsTrim_nil] at h1
    simp at h1
  have htrim : jsTrim input ≠ [] := by
    intro h
    rw [h] at h1
    simp at h1
  have hsan := sanitizeHtml_ne_nil _ htrim
  have hlt : ¬ (jsTrim input).length < MIN_MESSAGE_LENGTH := by
    simp only [MIN_MESSAGE_LENGTH]
    omega
  have hgt : ¬ (jsTrim input).length > MAX_MESSAGE_LENGTH := by omega
  have hzero : ¬ (sanitizeHtml (jsTrim input)).length = 0 := by
    simpa [List.length_eq_zero] using hsan
  refine ⟨?_, hsan⟩
  simp only [validateMessage, if_neg hinput, if_neg hlt, if_neg hgt, if_neg hzero]

/-- Witness for C6 at the concrete input `"hi"`. -/
theorem validateMessage_accepts_witness :
    (1 ≤ (jsTrim "hi".data).length ∧
      (jsTrim "hi".data).length ≤ MAX_MESSAGE_LENGTH) ∧
    (validateMessage "hi".data =
        { isValid := true, sanitized := some (sanitizeHtml (jsTrim "hi".data)) } ∧
      sanitizeHtml (jsTrim "hi".data) ≠ []) :=
  ⟨⟨by decide, by decide⟩, validateMessage_accepts "hi".data (by decide) (by decide)⟩

/-- C8: for the input `<script>alert("xss")</script>`, sanitization yields
exactly `&lt;script&gt;alert(&quot;xss&quot;)&lt;&#x2F;script&gt;` and
validation succeeds because the escaped string is non-empty. -/
theorem sanitize_xss_payload_exact :
    sanitizeHtml "<script>alert(\x22xss\x22)</script>".data =
      "&lt;script&gt;alert(&quot;xss&quot;)&lt;&#x2F;script&gt;".data ∧
    validateMessage "<script>alert(\x22xss\x22)</script>".data =
      { isValid := true,
        sanitized := some "&lt;script&gt;alert(&quot;xss&quot;)&lt;&#x2F;script&gt;".data } := by
  exact ⟨rfl, rfl⟩

/-- C5 (code bug): the code accepts the input `<script></script>` — its
sanitized form `&lt;script&gt;&lt;&#x2F;script&gt;` is non-empty, so the
"Message contains invalid characters" rejection demanded by the claim (and by
the unit test `should reject message that becomes empty after sanitization`)
never fires. -/
theorem validateMessage_script_only_markup_accepted :
    validateMessage "<script></script>".data =
      { isValid := true,
        sanitized := some "&lt;script&gt;&lt;&#x2F;script&gt;".data } ∧
    (validateMessage "<script></script>".data).error ≠
      some "Message contains invalid characters" := by
  exact ⟨rfl, by decide⟩

end MessageValidator

namespace RouterAgent

/-- C2 counterexample: for the one-message conversation and a gateway
response that parsed to an object with `reasoning` missing, `routeMessage`
throws `Failed to route message` instead of returning the default fallback
decision — the parse step's own field validation throws before
`isValidDecision` can substitute the fallback. -/
theorem routeMessage_missing_reasoning_propagates_error :
    routeMessage Examples.oneHelloState
        (.response (.obj Examples.missingReasoningObj)) =
      .error "Failed to route message" ∧
    routeMessage Examples.oneHelloState
        (.response (.obj Examples.missingReasoningObj)) ≠
      .ok defaultDecision := by
  have h1 : routeMessage Examples.oneHelloState
      (.response (.obj Examples.missingReasoningObj)) =
      .error "Failed to route message" := rfl
  refine ⟨h1, ?_⟩
  rw [h1]
  exact fun h => Except.noConfusion h

/-- C2 amended: once a gateway response is obtained and parsed to an object,
a semantic field violation detected inside the parse step (missing or falsy
field, invalid agent, non-number or out-of-range confidence) makes
`routeMessage` throw `Failed to route message`; the default fallback decision
is returned only when the parse step succeeds and the separate
`isValidDecision` check then rejects the decision. -/
theorem routeMessage_semantic_failure_amended (state : AgentState)
    (o : ParsedObj)
    (hne : state.messages ≠ [])
    (hcontent : ((state.messages.getLast?).map extractMessageContent).getD "" ≠ "") :
    (∀ e, parseRoutingDecisionTry (.obj o) = .error e →
      routeMessage state (.response (.obj o)) =
        .error "Failed to route message") ∧
    (∀ d, parseRoutingDecisionTry (.obj o) = .ok d →
      isValidDecision d = false →
      routeMessage state (.response (.obj o)) = .ok defaultDecision) ∧
    (∀ d, parseRoutingDecisionTry (.obj o) = .ok d →
      isValidDecision d = true →
      routeMessage state (.response (.obj o)) = .ok d) := by
  have hempty : state.messages.isEmpty = false := by
    simp [List.isEmpty_iff, hne]
  have hbeq : ((((state.messages.getLast?).map extractMessageContent).getD "") == "") = false :=
    beq_eq_false_iff_ne.mpr hcontent
  refine ⟨fun e he => ?_, fun d hd hv => ?_, fun d hd hv => ?_⟩ <;>
    simp only [routeMessage, hempty, Bool.false_eq_true, if_false, hbeq,
      parseRoutingDecision]
  · rw [he]
  · rw [hd]
    simp [hv]
  · rw [hd]
    simp [hv]

/-- Witness for C2's amended theorem: a parsed object whose `reasoning` is
the number `42` passes the parse step but fails `isValidDecision`, so the
fallback decision is returned. -/
theorem routeMessage_semantic_failure_amended_witness :
    (Examples.oneHelloState.messages ≠ [] ∧
      ((Examples.oneHelloState.messages.getLast?).map extractMessageContent).getD "" ≠ "") ∧
    routeMessage Examples.oneHelloState
        (.response (.obj Examples.numericReasoningObj)) = .ok defaultDecision :=
  ⟨⟨by decide, by decide⟩,
    (routeMessage_semantic_failure_amended Examples.oneHelloState
        Examples.numericReasoningObj (by decide) (by decide)).2.1
      { nextAgent := .chat, confidence := 1, reasoning := .num 42 }
      (by rfl) (by rfl)⟩

/-- C3 (code bug): a response with no locatable JSON and a well-formed JSON
response with wrong-shaped fields produce the identical thrown error at the
`routeMessage` boundary (`Failed to route message`) and already at the
`parseRoutingDecision` boundary (`Failed to parse routing decision`): the two
failure kinds the claim (and the router unit tests) require to be
distinguishable are collapsed by the parse step's `catch`. -/
theorem parse_and_semantic_failures_same_error :
    routeMessage Examples.oneHelloState (.response .noJson) =
      .error "Failed to route message" ∧
    routeMessage Examples.oneHelloState
        (.response (.obj Examples.missingReasoningObj)) =
      .error "Failed to route message" ∧
    parseRoutingDecision .noJson = .error "Failed to parse routing decision" ∧
    parseRoutingDecision (.obj Examples.missingReasoningObj) =
      .error "Failed to parse routing decision" := by
  exact ⟨rfl, rfl, rfl, rfl⟩

end RouterAgent

namespace MultiAgentGraph

theorem routeNode_messages (s : GraphState) (gw : RouterAgent.GatewayOutcome) :
    (routeNode s gw).messages = [] := by
  cases h : RouterAgent.routeMessage s.toAgentState gw <;> simp [routeNode, h]

theorem chatNode_messages (s : GraphState) (gw : ChatAgent.ChatGateway) (now : Nat) :
    ∃ c, (chatNode s gw now).messages = [{ role := .assistant, content := c }] := by
  cases h : ChatAgent.processMessage s.toAgentState gw now with
  | error e => exact ⟨chatApology, by simp [chatNode, h]⟩
  | ok response => exact ⟨response.content, by simp [chatNode, h]⟩

theorem processMessage_messages (s : GraphState) (routerGw : RouterAgent.GatewayOutcome)
    (chatGw : ChatAgent.ChatGateway) (now : Nat) :
    (processMessage s routerGw chatGw now).messages =
      s.messages ++
        (match routeDecision (applyUpdate s (routeNode s routerGw)) with
          | AgentTag.chat => chatNode (applyUpdate s (routeNode s routerGw)) chatGw now
          | AgentTag.rag => ragNode (applyUpdate s (routeNode s routerGw))
          | AgentTag.tools => toolsNode (applyUpdate s (routeNode s routerGw))).messages := by
  simp [processMessage, applyUpdate, routeNode_messages]

/-- C4: for every conversation state with at least one turn, one traversal of
the graph appends exactly one assistant turn to the message sequence whatever
the router and chat gateway outcomes are; a routing failure forces the
dispatch target to `chat`, and a chat-handler failure appends the fixed
apologetic reply instead of propagating the error. -/
theorem processMessage_appends_one_assistant_turn (s : GraphState)
    (routerGw : RouterAgent.GatewayOutcome) (chatGw : ChatAgent.ChatGateway)
    (now : Nat) (h : s.messages ≠ []) :
    (∃ reply, (processMessage s routerGw chatGw now).messages =
      s.messages ++ [{ role := .assistant, content := reply }]) ∧
    ((∃ e, RouterAgent.routeMessage s.toAgentState routerGw = .error e) →
      dispatchTarget s routerGw = .chat) ∧
    (dispatchTarget s routerGw = .chat →
      (∃ e, ChatAgent.processMessage
          (applyUpdate s (routeNode s routerGw)).toAgentState chatGw now = .error e) →
      (processMessage s routerGw chatGw now).messages =
        s.messages ++ [{ role := .assistant, content := chatApology }]) := by
  refine ⟨?_, ?_, ?_⟩
  · have hu : ∃ c,
        (match routeDecision (applyUpdate s (routeNode s routerGw)) with
          | AgentTag.chat => chatNode (applyUpdate s (routeNode s routerGw)) chatGw now
          | AgentTag.rag => ragNode (applyUpdate s (routeNode s routerGw))
          | AgentTag.tools => toolsNode (applyUpdate s (routeNode s routerGw))).messages
          = [{ role := .assistant, content := c }] := by
      cases routeDecision (applyUpdate s (routeNode s routerGw)) with
      | chat => exact chatNode_messages _ _ _
      | rag => exact ⟨_, rfl⟩
      | tools => exact ⟨_, rfl⟩
    obtain ⟨c, hc⟩ := hu
    exact ⟨c, by rw [processMessage_messages, hc]⟩
  · rintro ⟨e, he⟩
    simp [dispatchTarget, routeDecision, applyUpdate, routeNode, he]
  · rintro htarget ⟨e, he⟩
    simp only [dispatchTarget] at htarget
    rw [processMessage_messages, htarget]
    simp [chatNode, he]

/-- Witness for C4 at a one-turn conversation whose router and chat gateway
calls both fail. -/
theorem processMessage_appends_one_assistant_turn_witness :
    Examples.oneTurnGraphState.messages ≠ [] ∧
    ((∃ reply,
        (processMessage Examples.oneTurnGraphState (.failure "ECONNRESET")
            (.failure "ECONNRESET") 0).messages =
          Examples.oneTurnGraphState.messages ++
            [{ role := .assistant, content := reply }]) ∧
      ((∃ e, RouterAgent.routeMessage Examples.oneTurnGraphState.toAgentState
          (.failure "ECONNRESET") = .error e) →
        dispatchTarget Examples.oneTurnGraphState (.failure "ECONNRESET") = .chat) ∧
      (dispatchTarget Examples.oneTurnGraphState (.failure "ECONNRESET") = .chat →
        (∃ e, ChatAgent.processMessage
            (applyUpdate Examples.oneTurnGraphState
              (routeNode Examples.oneTurnGraphState (.failure "ECONNRESET"))).toAgentState
            (.failure "ECONNRESET") 0 = .error e) →
        (processMessage Examples.oneTurnGraphState (.failure "ECONNRESET")
            (.failure "ECONNRESET") 0).messages =
          Examples.oneTurnGraphState.messages ++
            [{ role := .assistant, content := chatApology }])) :=
  ⟨by decide,
    processMessage_appends_one_assistant_turn Examples.oneTurnGraphState
      (.failure "ECONNRESET") (.failure "ECONNRESET") 0 (by decide)⟩

/-- C7 counterexample: on a zero-turn conversation the chat agent does fail
with `No message to process`, but the rag and tools placeholder nodes do not
fail at all — indexing past the end yields `undefined`, and each node returns
a normal placeholder assistant reply quoting the string `undefined`. -/
theorem rag_tools_zero_turns_return_reply :
    ChatAgent.processMessage Examples.emptyGraphState.toAgentState (.success "ok") 0 =
      .error "No message to process" ∧
    (ragNode Examples.emptyGraphState).messages =
      [{ role := .assistant,
         content := "I understand you\x27re asking about: \x22undefined\x22. RAG functionality will be implemented in a future update. For now, I\x27ll provide a general response based on my training." }] ∧
    (toolsNode Examples.emptyGraphState).messages =
      [{ role := .assistant,
         content := "I understand you\x27re asking me to perform an action: \x22undefined\x22. Tool execution functionality will be implemented in a future update. For now, I\x27ll provide information based on my general knowledge." }] := by
  exact ⟨rfl, rfl, rfl⟩

/-- C7 amended: on a zero-turn conversation the router fails with
`No messages to route` and the chat agent fails with
`No message to process`, but the rag and tools placeholder nodes each return
a placeholder assistant reply instead of failing. -/
theorem zero_turn_guards (state : GraphState) (h : state.messages = [])
    (gw : RouterAgent.GatewayOutcome) (cgw : ChatAgent.ChatGateway) (now : Nat) :
    RouterAgent.routeMessage state.toAgentState gw = .error "No messages to route" ∧
    ChatAgent.processMessage state.toAgentState cgw now = .error "No message to process" ∧
    (∃ c, (ragNode state).messages = [{ role := .assistant, content := c }]) ∧
    (∃ c, (toolsNode state).messages = [{ role := .assistant, content := c }]) := by
  have hempty : state.toAgentState.messages.isEmpty = true := by
    simp [GraphState.toAgentState, h]
  refine ⟨?_, ?_, ⟨_, rfl⟩, ⟨_, rfl⟩⟩
  · simp [RouterAgent.routeMessage, hempty]
  · simp [ChatAgent.processMessage, hempty]

/-- Witness for C7's amended theorem at the zero-turn state. -/
theorem zero_turn_guards_witness :
    Examples.emptyGraphState.messages = [] ∧
    (RouterAgent.routeMessage Examples.emptyGraphState.toAgentState (.failure "down") =
        .error "No messages to route" ∧
      ChatAgent.processMessage Examples.emptyGraphState.toAgentState (.failure "down") 0 =
        .error "No message to process" ∧
      (∃ c, (ragNode Examples.emptyGraphState).messages =
        [{ role := .assistant, content := c }]) ∧
      (∃ c, (toolsNode Examples.emptyGraphState).messages =
        [{ role := .assistant, content := c }])) :=
  ⟨rfl, zero_turn_guards Examples.emptyGraphState rfl (.failure "down") (.failure "down") 0⟩

end MultiAgentGraph

namespace ChatRoute

/-- C1: every event sequence one POST /chat request writes begins with
exactly one `status` event, continues with zero or more `chunk` events, and
ends with exactly one terminal event (`complete` or `error`); nothing is
emitted after the terminal event, which is the last element of the
sequence. -/
theorem stream_event_protocol (run : StreamRun) :
    ∃ mid last,
      streamEvents run = initialStatus :: (mid ++ [last]) ∧
      (streamEvents run).head? = some initialStatus ∧
      initialStatus.kind = .status ∧
      (∀ e ∈ mid, e.kind = .chunk) ∧
      (last.kind = .complete ∨ last.kind = .error) := by
  cases run with
  | completes chunks =>
    refine ⟨chunks.map (fun c => StreamEvent.mk .chunk c.agent c.content),
      StreamEvent.mk .complete (currentAgent chunks) (fullResponse chunks),
      ?_, ?_, ?_, ?_, ?_⟩
    · rfl
    · rfl
    · rfl
    · intro e he
      simp only [List.mem_map] at he
      obtain ⟨c, _, rfl⟩ := he
      rfl
    · exact Or.inl rfl
  | failsAfter chunks =>
    refine ⟨chunks.map (fun c => StreamEvent.mk .chunk c.agent c.content),
      errorEvent, ?_, ?_, ?_, ?_, ?_⟩
    · rfl
    · rfl
    · rfl
    · intro e he
      simp only [List.mem_map] at he
      obtain ⟨c, _, rfl⟩ := he
      rfl
    · exact Or.inr rfl

end ChatRoute

namespace SessionManager

theorem applySaves_avoids (sessionId : String) (ops : List SaveOp) :
    ∀ (store : Store), (∀ op ∈ ops, op.1 ≠ sessionId) →
      applySaves ops store sessionId = store sessionId := by
  induction ops with
  | nil =>
    intro store _
    rfl
  | cons op rest ih =>
    intro store hops
    have h1 : op.1 ≠ sessionId := hops op (List.mem_cons_self _ _)
    have h2 : ∀ p ∈ rest, p.1 ≠ sessionId :=
      fun p hp => hops p (List.mem_cons_of_mem _ hp)
    have hstep : applySaves (op :: rest) store =
        applySaves rest (saveSession store op.1 op.2.1 op.2.2) := rfl
    rw [hstep, ih _ h2]
    simp [saveSession, Ne.symm h1]

/-- C9: `saveSession` stores the state with `updatedAt` set to the write
time and every other field unchanged, so a following `loadSession` of the
same id returns exactly the saved state apart from the refreshed
`updatedAt`, other ids are untouched, and `loadSession` of an id that no
save ever wrote returns `none` as a non-error outcome. -/
theorem saveSession_loadSession_roundtrip (store : Store) (sessionId : String)
    (state : StoredState) (now : Nat) (ops : List SaveOp)
    (hops : ∀ op ∈ ops, op.1 ≠ sessionId) :
    loadSession (saveSession store sessionId state now) sessionId =
      some { state with updatedAt := some now } ∧
    (∀ k, k ≠ sessionId →
      loadSession (saveSession store sessionId state now) k = loadSession store k) ∧
    loadSession (applySaves ops emptyStore) sessionId = none := by
  refine ⟨?_, ?_, ?_⟩
  · simp [loadSession, saveSession]
  · intro k hk
    simp [loadSession, saveSession, hk]
  · show applySaves ops emptyStore sessionId = none
    rw [applySaves_avoids sessionId ops emptyStore hops]
    rfl

/-- Witness for C9: save under `s-1`, load it back; a store that only ever
saved `s-2` loads `none` for `s-1`. -/
theorem saveSession_loadSession_roundtrip_witness :
    (∀ op ∈ [(("s-2" : String), Examples.otherStoredState, (3 : Nat))], op.1 ≠ "s-1") ∧
    (loadSession (saveSession emptyStore "s-1" Examples.sampleStoredState 7) "s-1" =
        some { Examples.sampleStoredState with updatedAt := some 7 } ∧
      (∀ k, k ≠ "s-1" →
        loadSession (saveSession emptyStore "s-1" Examples.sampleStoredState 7) k =
          loadSession emptyStore k) ∧
      loadSession (applySaves [("s-2", Examples.otherStoredState, 3)] emptyStore) "s-1" =
        none) :=
  ⟨by decide,
    saveSession_loadSession_roundtrip emptyStore "s-1" Examples.sampleStoredState 7
      [("s-2", Examples.otherStoredState, 3)] (by decide)⟩

/-- C10: converting an ordered message sequence into an agent state and back
returns the same sequence, same elements in the same order, hence also the
same length. -/
theorem agentState_messages_roundtrip (turns : List Message) (sid : String)
    (uid : Option String) :
    agentStateToMessages (messagesToAgentState turns sid uid) = turns ∧
    (agentStateToMessages (messagesToAgentState turns sid uid)).length =
      turns.length :=
  ⟨rfl, rfl⟩

end SessionManager
